import Mathlib

/-!
Shallow embedding of the e22 driver (`pkg/e22` and `pkg/hal` of
mbalug7/go-ebyte-lora) in Lean 4.

Conventions of the embedding:
* Go `uint8` / `byte` values are `Nat`; a reduction `% 256` or a bit mask
  is written explicitly wherever the Go code relies on the 8-bit width.
* A Go byte slice is `GoSlice`: the visible elements plus the bytes that
  sit between its length and its capacity in the underlying array
  (re-slicing within capacity can expose them).
* A Go runtime panic (out-of-range index or slice bound) is `Option.none`
  on the result type; `some` carries the ordinary Go return value.
* Fallible Go functions return `Except String α` with the error message of the source
  (format verbs are dropped).
* Hardware interaction is modelled by an oracle of the values the
  hardware would answer with, plus an explicit trace of the operations
  performed on the hardware handler.
-/

namespace E22

/-! ## Register model — src/pkg/e22/registers.go -/

/-- Register addresses `ADD_H .. CRYPT_L` (iota constants). -/
def ADD_H : Nat := 0

def ADD_L : Nat := 1

def REG0 : Nat := 2

def REG1 : Nat := 3

def REG2 : Nat := 4

def REG3 : Nat := 5

def CRYPT_H : Nat := 6

def CRYPT_L : Nat := 7

/-- Register `AddH`: one stored byte. -/
structure AddH where
  address : Nat
deriving DecidableEq

def AddH.GetValue (obj : AddH) : Nat :=
  obj.address

def AddH.SetValue (_obj : AddH) (value : Nat) : AddH :=
  { address := value % 256 }

/-- Register `AddL`: one stored byte. -/
structure AddL where
  address : Nat
deriving DecidableEq

def AddL.GetValue (obj : AddL) : Nat :=
  obj.address

def AddL.SetValue (_obj : AddL) (value : Nat) : AddL :=
  { address := value % 256 }

/-- Register `Reg0`: baud rate, parity bit and air data rate bit fields. -/
structure Reg0 where
  baudRate : Nat
  parityBit : Nat
  adRate : Nat
deriving DecidableEq

def Reg0.GetValue (obj : Reg0) : Nat :=
  obj.baudRate ||| obj.parityBit ||| obj.adRate

def Reg0.SetValue (_obj : Reg0) (value : Nat) : Reg0 :=
  { baudRate := value &&& 0xE0
    parityBit := value &&& 0x18
    adRate := value &&& 0x07 }

/-- Register `Reg1`: sub-packet length, ambient-noise RSSI flag, transmit power. -/
structure Reg1 where
  subPacket : Nat
  ambientNoiseRSSI : Nat
  transmittingPower : Nat
deriving DecidableEq

def Reg1.GetValue (obj : Reg1) : Nat :=
  obj.subPacket ||| obj.ambientNoiseRSSI ||| obj.transmittingPower

def Reg1.SetValue (_obj : Reg1) (value : Nat) : Reg1 :=
  { subPacket := value &&& 0xC0
    ambientNoiseRSSI := value &&& 0x20
    transmittingPower := value &&& 0x03 }

/-- Register `Reg2`: channel number, clamped to 80 on write. -/
structure Reg2 where
  channel : Nat
deriving DecidableEq

def Reg2.GetValue (obj : Reg2) : Nat :=
  obj.channel

def Reg2.SetValue (_obj : Reg2) (value : Nat) : Reg2 :=
  { channel := if value % 256 > 80 then 80 else value % 256 }

/-- Constant `RSSI_ENABLE` of the `enableRSSI` field. -/
def RSSI_ENABLE : Nat := 0x80

/-- Constant `TRANSMISSION_TRANSPARENT` of the `transmissionMethod` field. -/
def TRANSMISSION_TRANSPARENT : Nat := 0x00

/-- Register `Reg3`: RSSI flag, transmission method, LBT flag, WOR cycle. -/
structure Reg3 where
  enableRSSI : Nat
  transmissionMethod : Nat
  lbtEnable : Nat
  worCycle : Nat
deriving DecidableEq

def Reg3.GetValue (obj : Reg3) : Nat :=
  obj.enableRSSI ||| obj.transmissionMethod ||| obj.lbtEnable ||| obj.worCycle

def Reg3.SetValue (_obj : Reg3) (value : Nat) : Reg3 :=
  { enableRSSI := value &&& 0x80
    transmissionMethod := value &&& 0x40
    lbtEnable := value &&& 0x08
    worCycle := value &&& 0x07 }

/-- Register `CryptH`: the stored byte is never exposed by `GetValue`. -/
structure CryptH where
  value : Nat
deriving DecidableEq

def CryptH.GetValue (_obj : CryptH) : Nat :=
  0

def CryptH.SetValue (_obj : CryptH) (value : Nat) : CryptH :=
  { value := value % 256 }

/-- Register `CryptL`: the stored byte is never exposed by `GetValue`. -/
structure CryptL where
  value : Nat
deriving DecidableEq

def CryptL.GetValue (_obj : CryptL) : Nat :=
  0

def CryptL.SetValue (_obj : CryptL) (value : Nat) : CryptL :=
  { value := value % 256 }

/-- Type `registersCollection`: the fixed 8-slot register bank. In Go this is
`[8]hal.Register`; every construction site (`newRegistersCollection`, the
deep copy, the type assertions `registers[CRYPT_H].(*CryptH)` …) fixes the
kind of the register at each index, so the bank is embedded as a structure
with one typed field per slot, index order `ADD_H .. CRYPT_L`. -/
structure registersCollection where
  addH : AddH
  addL : AddL
  reg0 : Reg0
  reg1 : Reg1
  reg2 : Reg2
  reg3 : Reg3
  cryptH : CryptH
  cryptL : CryptL
deriving DecidableEq

/-- Constructor `newRegistersCollection`: the all-zero default bank. -/
def newRegistersCollection : registersCollection :=
  { addH := ⟨0⟩
    addL := ⟨0⟩
    reg0 := ⟨0, 0, 0⟩
    reg1 := ⟨0, 0, 0⟩
    reg2 := ⟨0⟩
    reg3 := ⟨0, 0, 0, 0⟩
    cryptH := ⟨0⟩
    cryptL := ⟨0⟩ }

/-- Indexing `registers[i].GetValue()` for the array layout of the bank
(indices out of 0..7 are never produced by the embedded code paths;
they answer 0 here). -/
def registersCollection.slotGetValue (obj : registersCollection) : Nat → Nat
  | 0 => obj.addH.GetValue
  | 1 => obj.addL.GetValue
  | 2 => obj.reg0.GetValue
  | 3 => obj.reg1.GetValue
  | 4 => obj.reg2.GetValue
  | 5 => obj.reg3.GetValue
  | 6 => obj.cryptH.GetValue
  | 7 => obj.cryptL.GetValue
  | _ => 0

/-- Indexing `registers[i].SetValue(v)` for the array layout of the bank
(callers guard the index themselves; out-of-range indices are a
panic at the caller, see `registersCollection.setSeq`). -/
def registersCollection.slotSetValue (obj : registersCollection) (i : Nat) (v : Nat) :
    registersCollection :=
  match i with
  | 0 => { obj with addH := obj.addH.SetValue v }
  | 1 => { obj with addL := obj.addL.SetValue v }
  | 2 => { obj with reg0 := obj.reg0.SetValue v }
  | 3 => { obj with reg1 := obj.reg1.SetValue v }
  | 4 => { obj with reg2 := obj.reg2.SetValue v }
  | 5 => { obj with reg3 := obj.reg3.SetValue v }
  | 6 => { obj with cryptH := obj.cryptH.SetValue v }
  | 7 => { obj with cryptL := obj.cryptL.SetValue v }
  | _ => obj

/-- The eight `GetValue()` bytes of the bank, in slot order. -/
def registersCollection.values (obj : registersCollection) : List Nat :=
  [obj.addH.GetValue, obj.addL.GetValue, obj.reg0.GetValue, obj.reg1.GetValue,
   obj.reg2.GetValue, obj.reg3.GetValue, obj.cryptH.GetValue, obj.cryptL.GetValue]

/-- Contiguous store loop: `SetValue` the byte `params[j]` into the register
at index `start + j`, for each `j` in order. The bank has exactly 8 slots;
touching an index at or above 8 is a Go runtime panic, `none` here. -/
def registersCollection.setSeq (obj : registersCollection) (start : Nat) :
    List Nat → Option registersCollection
  | [] => some obj
  | p :: rest =>
    if start < 8 then (obj.slotSetValue start p).setSeq (start + 1) rest
    else none

/-- Modelled from the spec: `registersCollection.Update(startAddress, bytes)`
is declared by callers in `src/pkg/e22/module.go` but its body is not among
the source files. Spec §4.2: "`Update(startAddress, bytes)` (writes each
byte into the register at `startAddress + offset` contiguously)". -/
def registersCollection.Update (obj : registersCollection) (startAddr : Nat)
    (params : List Nat) : Option registersCollection :=
  obj.setSeq startAddr params

/-- Modelled from the spec: `registersCollection.EqualTo(other)` is declared
by callers in `src/pkg/e22/module.go` but its body is not among the source
files. Spec §4.2: "`EqualTo(other)` (true iff every slot agrees on `GetValue()`)". -/
def registersCollection.EqualTo (obj other : registersCollection) : Bool :=
  obj.values == other.values

/-- Modelled from the spec: `registersCollection.Copy()` is declared by a
caller in `src/pkg/e22/configurator.go` but its body is not among the source
files. Spec §4.2: "`Copy` (independent deep clone)"; in a pure model a deep
clone is the value itself. -/
def registersCollection.Copy (obj : registersCollection) : registersCollection :=
  obj

/-! ## Go slices and panics -/

/-- A Go byte slice: `elems` are the visible elements (indices `0 ..
len-1`), `spare` are the bytes of the underlying array between the
length of the slice and its capacity. Re-slicing within capacity can pull
`spare` bytes into view. -/
structure GoSlice where
  elems : List Nat
  spare : List Nat
deriving DecidableEq

/-- Re-slice `s[:m]` on a Go slice: allowed up to the capacity; shrinking moves
the cut-off elements into `spare`, growing pulls bytes out of `spare`;
beyond capacity it panics (`none`). -/
def GoSlice.resliceTo (s : GoSlice) (m : Nat) : Option GoSlice :=
  if m ≤ s.elems.length then
    some ⟨s.elems.take m, s.elems.drop m ++ s.spare⟩
  else if m ≤ s.elems.length + s.spare.length then
    some ⟨s.elems ++ s.spare.take (m - s.elems.length),
          s.spare.drop (m - s.elems.length)⟩
  else
    none

/-- Re-slice `s[k:]` on a Go slice (k within the length). -/
def GoSlice.dropFrom (s : GoSlice) (k : Nat) : GoSlice :=
  ⟨s.elems.drop k, s.spare⟩

/-! ## Protocol codec — src/pkg/e22/module.go -/

/-- Command byte `cmdSetRegPermanent`. -/
def cmdSetRegPermanent : Nat := 0xC0

/-- Command byte `cmdGetReg`. -/
def cmdGetReg : Nat := 0xC1

/-- Command byte `cmdSetRegTemporary`. -/
def cmdSetRegTemporary : Nat := 0xC2

/-- Record `chipRsp`: parsed module response. -/
structure chipRsp where
  command : Nat
  startAddr : Nat
  length : Nat
  params : List Nat
deriving DecidableEq

/-- Function `parseChipResponse` (src/pkg/e22/module.go lines 181–204). The input
is the byte slice handed over by the caller; the result is `none` for a
Go runtime panic (the re-slice `params[:paramsNumber]` exceeding the
capacity), otherwise the Go return value. -/
def parseChipResponse (data : GoSlice) : Option (Except String chipRsp) :=
  if data.elems.length < 4 then
    some (Except.error "invalid command")
  else
    let startAddr := data.elems.getD 1 0
    let paramsNumber := data.elems.getD 2 0
    let params0 := data.dropFrom 3
    let params? := if paramsNumber > 0 then params0.resliceTo paramsNumber else some params0
    match params? with
    | none => none
    | some params =>
      if paramsNumber ≠ params.elems.length then
        some (Except.error "invalid command, mismatch in length and params count")
      else
        some (Except.ok
          { command := cmdGetReg
            startAddr := startAddr
            length := paramsNumber
            params := params.elems })

/-- The response decoding that claim C2 describes, written from the words of the
claim (for refutation only, not from the source): inputs shorter than 4
bytes fail; otherwise all bytes after index `3 + param_count` are discarded,
a framing error is returned exactly when the declared `param_count` disagrees
with the bytes actually available, and otherwise parsing succeeds with
`params` equal to bytes 3 through `3 + param_count`. -/
def parseChipResponseClaim (data : List Nat) : Option (Except String chipRsp) :=
  if data.length < 4 then
    some (Except.error "invalid command")
  else
    let startAddr := data.getD 1 0
    let paramsNumber := data.getD 2 0
    if paramsNumber > data.length - 3 then
      some (Except.error "invalid command, mismatch in length and params count")
    else
      some (Except.ok
        { command := cmdGetReg
          startAddr := startAddr
          length := paramsNumber
          params := (data.drop 3).take paramsNumber })

/-- Function `getConfigSetRequest` (src/pkg/e22/module.go lines 154–177): SET frame
for the staged bank; drops the two crypt slots when both stored crypt
bytes are 0; command byte selected by `temporary`. -/
def getConfigSetRequest (temporary : Bool) (registers : registersCollection) :
    List Nat :=
  let params :=
    if registers.cryptH.value = 0 ∧ registers.cryptL.value = 0 then
      registers.values.take 6
    else
      registers.values
  let cmd := if temporary then cmdSetRegTemporary else cmdSetRegPermanent
  cmd :: ADD_H :: params.length :: params

/-- Function `saveConfig` (src/pkg/e22/module.go lines 141–149): parse the response
and store the parameters into the bank via `Update`; `none` is a panic in
either step. -/
def saveConfig (registers : registersCollection) (data : GoSlice) :
    Option (Except String registersCollection) :=
  match parseChipResponse data with
  | none => none
  | some (Except.error e) => some (Except.error ("failed to save config: " ++ e))
  | some (Except.ok rsp) =>
    match registers.Update rsp.startAddr rsp.params with
    | none => none
    | some updated => some (Except.ok updated)

/-- Function `Chip.SaveConfig` (src/pkg/e22/chip.go lines 81–105): the older in-tree
variant that checks lengths itself and then runs the same contiguous store
loop `registers[i].SetValue(data[3+offset])`; `none` is the panic of an
out-of-range register index. The loop bound `startAddr+length` is computed
in Go byte arithmetic and wraps mod 256; since both operands are bytes, the
loop runs `length` iterations when `startAddr + length < 256` and zero
iterations when the byte sum wraps (the wrapped bound is then at most
`startAddr`), which the truncated subtraction
`(startAddr + length) % 256 - startAddr` captures exactly. The length guard
`len(data) < 3+int(length)` converts to `int` first and does not wrap. -/
def chipSaveConfig (registers : registersCollection) (data : List Nat) :
    Option (Except String registersCollection) :=
  if data.length < 3 then
    some (Except.error "invalid config")
  else
    let startAddr := data.getD 1 0
    let length := data.getD 2 0
    if data.length < 3 + length then
      some (Except.error "invalid parameters in config")
    else
      match registers.setSeq startAddr
          ((data.drop 3).take ((startAddr + length) % 256 - startAddr)) with
      | none => none
      | some updated => some (Except.ok updated)

/-! ## Hardware handler oracle and traces -/

/-- Modes of `hal.ChipMode`. -/
inductive ChipMode
  | normal
  | wakeUp
  | powerSave
  | sleep
deriving DecidableEq

/-- Operations performed on the hardware handler, in order. -/
inductive HWOp
  | setMode (mode : ChipMode)
  | writeSerial (bytes : List Nat)
  | readSerial
  | stageSerialPortConfig (baud : Nat) (parityBit : Nat)
deriving DecidableEq

/-- What the hardware would answer: the current chip mode (`GetMode`) and
the bytes a `ReadSerial` returns. The embedded code paths assume the
hardware calls themselves succeed; their failure branches only forward
transport errors and are not reached in this model. -/
structure HWOracle where
  getMode : ChipMode
  readRsp : GoSlice
deriving DecidableEq

/-- Lookup `serialBaudMap` (Go map; a missing key yields the zero value). -/
def serialBaudMap (b : Nat) : Nat :=
  if b = 0x00 then 1200
  else if b = 0x20 then 2400
  else if b = 0x40 then 4800
  else if b = 0x60 then 9600
  else if b = 0x80 then 19200
  else if b = 0xA0 then 38400
  else if b = 0xC0 then 57600
  else if b = 0xE0 then 115200
  else 0

/-- Lookup `serialParityMap`: parity constants `hal.ParityNone = 78 ('N')`,
`hal.ParityOdd = 79 ('O')`, `hal.ParityEven = 69 ('E')`; a missing key
yields the zero value. -/
def serialParityMap (p : Nat) : Nat :=
  if p = 0x00 then 78
  else if p = 0x08 then 79
  else if p = 0x10 then 69
  else 0

/-- Function `updateSerialStreamConfig` (src/pkg/e22/module.go lines 208–215): the
hardware operation it performs for the given bank. -/
def updateSerialStreamConfig (registers : registersCollection) : HWOp :=
  HWOp.stageSerialPortConfig (serialBaudMap registers.reg0.baudRate)
    (serialParityMap registers.reg0.parityBit)

/-! ## Device controller — src/pkg/e22/module.go -/

/-- Record `Message`: payload bytes and RSSI byte. -/
structure Message where
  Payload : List Nat
  RSSI : Nat
deriving DecidableEq

/-- Errors handed to the message callback by `onMessageHandler`. -/
inductive CbErr
  | ioError
  | invalidMessage
deriving DecidableEq

/-- The incoming error of the read that triggered `onMessageHandler`. -/
inductive GoErr
  | eof
  | ioError
deriving DecidableEq

/-- Function `onMessageHandler` (src/pkg/e22/module.go lines 95–118): what is handed
to the registered callback — `none` when the callback is not invoked at all
(end-of-stream), `some (message, callbackError)` otherwise. The field
`Reg3.enableRSSI` of the bank selects RSSI extraction. -/
def onMessageHandler (registers : registersCollection) (msg : List Nat)
    (err : Option GoErr) : Option (Message × Option CbErr) :=
  match err with
  | some GoErr.eof => none
  | some GoErr.ioError => some (⟨[], 0⟩, some CbErr.ioError)
  | none =>
    if registers.reg3.enableRSSI = RSSI_ENABLE then
      if msg.length < 2 then
        some (⟨[], 0⟩, some CbErr.invalidMessage)
      else
        some (⟨msg.take (msg.length - 1), msg.getD (msg.length - 1) 0⟩, none)
    else
      some (⟨msg, 0⟩, none)

/-- Errors returned by the send paths; spec §7 files both under
`StateError`. -/
inductive SendErr
  | modeState
  | transparentState
deriving DecidableEq

/-- Function `SendMessage` (src/pkg/e22/module.go lines 262–275): the Go result plus
the trace of hardware operations (the transport write happens only when it
appears in the trace). -/
def SendMessage (currentMode : ChipMode) (message : List Nat) :
    Except SendErr Unit × List HWOp :=
  if currentMode = ChipMode.sleep ∨ currentMode = ChipMode.powerSave then
    (Except.error SendErr.modeState, [])
  else
    (Except.ok (), [HWOp.writeSerial message])

/-- Function `SendFixedMessage` (src/pkg/e22/module.go lines 278–297): mode check,
then the transparent-transmission check, then the prefixed write. -/
def SendFixedMessage (registers : registersCollection) (currentMode : ChipMode)
    (addressHigh addressLow channel : Nat) (message : List Nat) :
    Except SendErr Unit × List HWOp :=
  if currentMode = ChipMode.sleep ∨ currentMode = ChipMode.powerSave then
    (Except.error SendErr.modeState, [])
  else if registers.reg3.transmissionMethod = TRANSMISSION_TRANSPARENT then
    (Except.error SendErr.transparentState, [])
  else
    (Except.ok (), [HWOp.writeSerial (addressHigh :: addressLow :: channel :: message)])

deriving instance DecidableEq for Except

/-- Outcome of `WriteConfigToChip`: the Go error or success, the bank the
module holds afterwards, and the trace of hardware operations. -/
structure CommitOutcome where
  result : Except String Unit
  registers : registersCollection
  ops : List HWOp
deriving DecidableEq

/-- Function `WriteConfigToChip` (src/pkg/e22/module.go lines 218–259): the commit
transaction. `none` is a panic inside `saveConfig`; otherwise the outcome
carries the error/success, the resulting bank and the hardware trace. -/
def WriteConfigToChip (hw : HWOracle) (temporaryConfig : Bool)
    (stagedRegisters current : registersCollection) : Option CommitOutcome :=
  if stagedRegisters.EqualTo current then
    some { result := Except.error
             "new register setup is the same as the setup on the chip, ignoring"
           registers := current
           ops := [] }
  else
    let currentMode := hw.getMode
    let data := getConfigSetRequest temporaryConfig stagedRegisters
    let ops0 := [HWOp.setMode ChipMode.sleep, HWOp.writeSerial data, HWOp.readSerial]
    match saveConfig current hw.readRsp with
    | none => none
    | some (Except.error e) =>
      some { result := Except.error ("failed to save chip config to lib model: " ++ e)
             registers := current
             ops := ops0 }
    | some (Except.ok updated) =>
      let ops1 := ops0 ++ [updateSerialStreamConfig updated]
      if ¬ stagedRegisters.EqualTo updated then
        some { result := Except.error
                 "current chip configuration is not the same as saved"
               registers := updated
               ops := ops1 }
      else
        some { result := Except.ok ()
               registers := updated
               ops := ops1 ++ [HWOp.setMode currentMode] }

/-! ## Helper lemmas -/

/-- The contiguous store loop succeeds exactly when it is given no bytes or
when every touched index stays below 8. -/
theorem setSeq_isSome (ps : List Nat) :
    ∀ (obj : registersCollection) (start : Nat),
      ((obj.setSeq start ps).isSome = true ↔ (ps = [] ∨ start + ps.length ≤ 8)) := by
  induction ps with
  | nil =>
    intro obj start
    simp [registersCollection.setSeq]
  | cons p rest ih =>
    intro obj start
    by_cases h : start < 8
    · rw [registersCollection.setSeq, if_pos h, ih]
      simp only [← List.length_eq_zero, List.length_cons]
      omega
    · rw [registersCollection.setSeq, if_neg h]
      simp only [Option.isSome_none, Bool.false_eq_true, false_iff,
        ← List.length_eq_zero, List.length_cons]
      omega

/-- Full case analysis of `parseChipResponse` over the length of the input,
the declared parameter count and the spare capacity of the buffer. -/
theorem parse_cases (data : GoSlice) :
    (data.elems.length < 4 →
       parseChipResponse data = some (Except.error "invalid command")) ∧
    (4 ≤ data.elems.length → data.elems.getD 2 0 = 0 →
       parseChipResponse data =
         some (Except.error "invalid command, mismatch in length and params count")) ∧
    (4 ≤ data.elems.length → 0 < data.elems.getD 2 0 →
       data.elems.getD 2 0 + 3 ≤ data.elems.length →
       parseChipResponse data = some (Except.ok
         { command := cmdGetReg
           startAddr := data.elems.getD 1 0
           length := data.elems.getD 2 0
           params := (data.elems.drop 3).take (data.elems.getD 2 0) })) ∧
    (4 ≤ data.elems.length → data.elems.length < data.elems.getD 2 0 + 3 →
       data.elems.getD 2 0 + 3 ≤ data.elems.length + data.spare.length →
       parseChipResponse data = some (Except.ok
         { command := cmdGetReg
           startAddr := data.elems.getD 1 0
           length := data.elems.getD 2 0
           params := data.elems.drop 3 ++
             data.spare.take (data.elems.getD 2 0 - (data.elems.length - 3)) })) ∧
    (4 ≤ data.elems.length →
       data.elems.length + data.spare.length < data.elems.getD 2 0 + 3 →
       parseChipResponse data = none) := by
  have hd3 : (data.elems.drop 3).length = data.elems.length - 3 := List.length_drop 3 _
  refine ⟨?_, ?_, ?_, ?_, ?_⟩
  · intro h
    simp only [parseChipResponse, if_pos h]
  · intro h4 h0
    have hn : ¬ data.elems.length < 4 := by omega
    have hpc : ¬ data.elems.getD 2 0 > 0 := by omega
    have hne : data.elems.getD 2 0 ≠ data.elems.length - 3 := by omega
    simp only [parseChipResponse, GoSlice.dropFrom, hd3, if_neg hn, if_neg hpc,
      if_pos hne]
  · intro h4 hpos hle
    have hn : ¬ data.elems.length < 4 := by omega
    have hre : data.elems.getD 2 0 ≤ data.elems.length - 3 := by omega
    have htk : ¬ (data.elems.getD 2 0
        ≠ ((data.elems.drop 3).take (data.elems.getD 2 0)).length) := by
      rw [List.length_take, hd3]; omega
    simp only [parseChipResponse, GoSlice.dropFrom, GoSlice.resliceTo, hd3, if_neg hn,
      if_pos hpos, if_pos hre, if_neg htk]
  · intro h4 hgt hsp
    have hn : ¬ data.elems.length < 4 := by omega
    have hpos : data.elems.getD 2 0 > 0 := by omega
    have hre : ¬ data.elems.getD 2 0 ≤ data.elems.length - 3 := by omega
    have hre2 : data.elems.getD 2 0 ≤ data.elems.length - 3 + data.spare.length := by
      omega
    have hln : ¬ (data.elems.getD 2 0 ≠ (data.elems.drop 3 ++
        data.spare.take (data.elems.getD 2 0 - (data.elems.length - 3))).length) := by
      rw [List.length_append, List.length_take, hd3]; omega
    simp only [parseChipResponse, GoSlice.dropFrom, GoSlice.resliceTo, hd3, if_neg hn,
      if_pos hpos, if_neg hre, if_pos hre2, if_neg hln]
  · intro h4 hbig
    have hn : ¬ data.elems.length < 4 := by omega
    have hpos : data.elems.getD 2 0 > 0 := by omega
    have hre : ¬ data.elems.getD 2 0 ≤ data.elems.length - 3 := by omega
    have hre2 : ¬ data.elems.getD 2 0 ≤ data.elems.length - 3 + data.spare.length := by
      omega
    simp only [parseChipResponse, GoSlice.dropFrom, GoSlice.resliceTo, hd3, if_neg hn,
      if_pos hpos, if_neg hre, if_neg hre2]

/-- Every successfully parsed response carries as many parameter bytes as its
declared length, and that length is at least 1 (a declared count of 0 is
always rejected). -/
theorem parse_ok_shape {data : GoSlice} {rsp : chipRsp}
    (h : parseChipResponse data = some (Except.ok rsp)) :
    rsp.params.length = rsp.length ∧ 1 ≤ rsp.length := by
  obtain ⟨c1, c2, c3, c4, c5⟩ := parse_cases data
  by_cases h4 : data.elems.length < 4
  · rw [c1 h4] at h; exact absurd (Option.some.inj h) (by simp)
  · have h4le : 4 ≤ data.elems.length := by omega
    by_cases h0 : data.elems.getD 2 0 = 0
    · rw [c2 h4le h0] at h; exact absurd (Option.some.inj h) (by simp)
    · have hpos : 0 < data.elems.getD 2 0 := by omega
      by_cases hle : data.elems.getD 2 0 + 3 ≤ data.elems.length
      · rw [c3 h4le hpos hle] at h
        have he := Except.ok.inj (Option.some.inj h)
        subst he
        constructor
        · show ((data.elems.drop 3).take (data.elems.getD 2 0)).length
            = data.elems.getD 2 0
          rw [List.length_take, List.length_drop]
          omega
        · show 1 ≤ data.elems.getD 2 0
          omega
      · by_cases hsp : data.elems.getD 2 0 + 3 ≤ data.elems.length + data.spare.length
        · rw [c4 h4le (by omega) hsp] at h
          have he := Except.ok.inj (Option.some.inj h)
          subst he
          constructor
          · show (data.elems.drop 3 ++
                data.spare.take (data.elems.getD 2 0 - (data.elems.length - 3))).length
              = data.elems.getD 2 0
            rw [List.length_append, List.length_take, List.length_drop]
            omega
          · show 1 ≤ data.elems.getD 2 0
            omega
        · rw [c5 h4le (by omega)] at h
          exact absurd h (by simp)

/-! ## Claim theorems -/

/-- C1, counterexample: the claim asserts that for every register in
Reg0, Reg1, Reg3 and every byte value v, SetValue(v) followed by GetValue()
returns exactly v. This fails at Reg1 with v = 0x04: the Reg1 masks
0xC0, 0x20, 0x03 drop bit 2, so the round trip returns 0. -/
theorem C1_counterexample :
    ¬ (∀ (r0 : Reg0) (r1 : Reg1) (r3 : Reg3) (v : Fin 256),
        (r0.SetValue v.val).GetValue = v.val ∧
        (r1.SetValue v.val).GetValue = v.val ∧
        (r3.SetValue v.val).GetValue = v.val) := by
  intro h
  exact absurd (h ⟨0, 0, 0⟩ ⟨0, 0, 0⟩ ⟨0, 0, 0, 0⟩ ⟨4, by decide⟩).2.1 (by decide)

set_option maxRecDepth 8192

/-- C1, amended: SetValue(v) followed by GetValue() returns exactly v for
Reg0 (masks 0xE0, 0x18, 0x07 cover all 8 bits), but returns v AND 0xE3 for
Reg1 (bits 2..4 are dropped) and v AND 0xCF for Reg3 (bits 4..5 are
dropped); the masks are non-overlapping but do not span all 8 bits for
Reg1 and Reg3. -/
theorem C1_roundtrip_masks (r0 : Reg0) (r1 : Reg1) (r3 : Reg3) :
    ∀ v : Fin 256,
      (r0.SetValue v.val).GetValue = v.val ∧
      (r1.SetValue v.val).GetValue = v.val &&& 0xE3 ∧
      (r3.SetValue v.val).GetValue = v.val &&& 0xCF := by
  have h : ∀ v : Fin 256,
      (Reg0.SetValue ⟨0, 0, 0⟩ v.val).GetValue = v.val ∧
      (Reg1.SetValue ⟨0, 0, 0⟩ v.val).GetValue = v.val &&& 0xE3 ∧
      (Reg3.SetValue ⟨0, 0, 0, 0⟩ v.val).GetValue = v.val &&& 0xCF := by decide
  exact h

/-- C8: Reg2.SetValue(v) followed by GetValue() yields 80 when v > 80 and
exactly v when v ≤ 80, for every byte value v. -/
theorem C8_channel_clamp (r : Reg2) :
    ∀ v : Fin 256, (r.SetValue v.val).GetValue = if 80 < v.val then 80 else v.val := by
  have h : ∀ v : Fin 256,
      (Reg2.SetValue ⟨0⟩ v.val).GetValue = if 80 < v.val then 80 else v.val := by decide
  exact h

/-- C9: for CryptH and CryptL and every byte value k, GetValue() returns 0
after SetValue(k); the stored value is never re-exposed. -/
theorem C9_crypt_write_only (rH : CryptH) (rL : CryptL) :
    ∀ k : Fin 256,
      (rH.SetValue k.val).GetValue = 0 ∧ (rL.SetValue k.val).GetValue = 0 := by
  intro k
  exact ⟨rfl, rfl⟩

/-- C2, counterexample: the claim predicts that after discarding trailing
bytes the parse of [0xC1, 0x00, 0x00, 0xFF] succeeds with empty params
(declared count 0, 0 bytes kept, lengths agree), but the code skips the
discard step when the declared count is 0 and returns the length-mismatch
framing error. -/
theorem C2_counterexample :
    parseChipResponse ⟨[0xC1, 0x00, 0x00, 0xFF], []⟩ =
        some (Except.error "invalid command, mismatch in length and params count") ∧
      parseChipResponseClaim [0xC1, 0x00, 0x00, 0xFF] =
        some (Except.ok
          { command := cmdGetReg, startAddr := 0, length := 0, params := [] }) := by
  exact ⟨rfl, rfl⟩

/-- C2, amended: parseChipResponse returns a framing error for every input
shorter than 4 bytes, and for every input of at least 4 bytes whose declared
param_count byte is 0 (the discard step is skipped in that case); when
0 < param_count ≤ len - 3 it succeeds with params equal to bytes 3 through
3 + param_count; when param_count exceeds len - 3 it does NOT return a
framing error: the re-slice succeeds and pads params with bytes from the
spare capacity of the underlying buffer when the capacity suffices, and
panics otherwise. -/
theorem C2_parse_behavior (data : GoSlice) :
    (data.elems.length < 4 →
       parseChipResponse data = some (Except.error "invalid command")) ∧
    (4 ≤ data.elems.length → data.elems.getD 2 0 = 0 →
       parseChipResponse data =
         some (Except.error "invalid command, mismatch in length and params count")) ∧
    (4 ≤ data.elems.length → 0 < data.elems.getD 2 0 →
       data.elems.getD 2 0 + 3 ≤ data.elems.length →
       parseChipResponse data = some (Except.ok
         { command := cmdGetReg
           startAddr := data.elems.getD 1 0
           length := data.elems.getD 2 0
           params := (data.elems.drop 3).take (data.elems.getD 2 0) })) ∧
    (4 ≤ data.elems.length → data.elems.length < data.elems.getD 2 0 + 3 →
       data.elems.getD 2 0 + 3 ≤ data.elems.length + data.spare.length →
       parseChipResponse data = some (Except.ok
         { command := cmdGetReg
           startAddr := data.elems.getD 1 0
           length := data.elems.getD 2 0
           params := data.elems.drop 3 ++
             data.spare.take (data.elems.getD 2 0 - (data.elems.length - 3)) })) ∧
    (4 ≤ data.elems.length →
       data.elems.length + data.spare.length < data.elems.getD 2 0 + 3 →
       parseChipResponse data = none) :=
  parse_cases data

/-- Witness for C2 at concrete inputs: a 2-byte input, a count-0 input, a
well-formed 2-parameter response with a trailing byte, a truncated frame
whose buffer has spare capacity, and a truncated frame without it. -/
theorem C2_parse_behavior_witness :
    parseChipResponse ⟨[0xC1, 0x00], []⟩ = some (Except.error "invalid command") ∧
    parseChipResponse ⟨[0xC1, 0x00, 0x00, 0x07], []⟩ =
      some (Except.error "invalid command, mismatch in length and params count") ∧
    parseChipResponse ⟨[0xC1, 0x00, 0x02, 0x0A, 0x0B, 0x63], []⟩ =
      some (Except.ok
        { command := cmdGetReg, startAddr := 0, length := 2, params := [0x0A, 0x0B] }) ∧
    parseChipResponse ⟨[0xC1, 0x00, 0x04, 0x0A, 0x0B], [0x00, 0x00, 0x00]⟩ =
      some (Except.ok
        { command := cmdGetReg, startAddr := 0, length := 4,
          params := [0x0A, 0x0B, 0x00, 0x00] }) ∧
    parseChipResponse ⟨[0xC1, 0x00, 0x09, 0x0A], []⟩ = none :=
  ⟨(C2_parse_behavior ⟨[0xC1, 0x00], []⟩).1 (by decide),
   (C2_parse_behavior ⟨[0xC1, 0x00, 0x00, 0x07], []⟩).2.1 (by decide) (by decide),
   (C2_parse_behavior ⟨[0xC1, 0x00, 0x02, 0x0A, 0x0B, 0x63], []⟩).2.2.1
     (by decide) (by decide) (by decide),
   (C2_parse_behavior ⟨[0xC1, 0x00, 0x04, 0x0A, 0x0B], [0x00, 0x00, 0x00]⟩).2.2.2.1
     (by decide) (by decide) (by decide),
   (C2_parse_behavior ⟨[0xC1, 0x00, 0x09, 0x0A], []⟩).2.2.2.2
     (by decide) (by decide)⟩

/-- C3: for every staged bank, the SET frame is 9 bytes long with
param-count byte 6 when both crypt registers store 0 and 11 bytes long with
param-count byte 8 otherwise; byte 0 is 0xC2 for a temporary config and
0xC0 otherwise, byte 1 (the start address) is 0, and the two command
variants agree on every byte after byte 0. -/
theorem C3_set_frame (temporary : Bool) (registers : registersCollection) :
    (registers.cryptH.value = 0 ∧ registers.cryptL.value = 0 →
       (getConfigSetRequest temporary registers).length = 9 ∧
       (getConfigSetRequest temporary registers).getD 2 0 = 6) ∧
    (¬ (registers.cryptH.value = 0 ∧ registers.cryptL.value = 0) →
       (getConfigSetRequest temporary registers).length = 11 ∧
       (getConfigSetRequest temporary registers).getD 2 0 = 8) ∧
    (getConfigSetRequest temporary registers).getD 0 0 =
      (if temporary then cmdSetRegTemporary else cmdSetRegPermanent) ∧
    (getConfigSetRequest temporary registers).getD 1 0 = 0 ∧
    (getConfigSetRequest true registers).drop 1 =
      (getConfigSetRequest false registers).drop 1 := by
  by_cases h : registers.cryptH.value = 0 ∧ registers.cryptL.value = 0
  · refine ⟨fun _ => ?_, fun hc => absurd h hc, ?_, ?_, ?_⟩ <;>
      simp [getConfigSetRequest, registersCollection.values, h, ADD_H]
  · refine ⟨fun hc => absurd hc h, fun _ => ?_, ?_, ?_, ?_⟩ <;>
      simp [getConfigSetRequest, registersCollection.values, h, ADD_H]

/-- Witness for C3 at a bank with both crypt bytes 0 and at a bank with a
nonzero crypt byte. -/
theorem C3_set_frame_witness :
    ((getConfigSetRequest false newRegistersCollection).length = 9 ∧
      (getConfigSetRequest false newRegistersCollection).getD 2 0 = 6) ∧
    ((getConfigSetRequest true
        { newRegistersCollection with cryptH := ⟨5⟩ }).length = 11 ∧
      (getConfigSetRequest true
        { newRegistersCollection with cryptH := ⟨5⟩ }).getD 2 0 = 8) :=
  ⟨(C3_set_frame false newRegistersCollection).1 ⟨rfl, rfl⟩,
   (C3_set_frame true { newRegistersCollection with cryptH := ⟨5⟩ }).2.1 (by decide)⟩

/-- C4: whenever CRYPT_H or CRYPT_L stores a nonzero value, the 11-byte SET
frame carries 0 at frame positions 9 and 10 regardless of the staged key,
because the parameter bytes come from GetValue() and the crypt registers
always answer 0. -/
theorem C4_crypt_bytes_always_zero (temporary : Bool) (registers : registersCollection)
    (h : registers.cryptH.value ≠ 0 ∨ registers.cryptL.value ≠ 0) :
    (getConfigSetRequest temporary registers).length = 11 ∧
    (getConfigSetRequest temporary registers).getD 9 0 = 0 ∧
    (getConfigSetRequest temporary registers).getD 10 0 = 0 := by
  have hc : ¬ (registers.cryptH.value = 0 ∧ registers.cryptL.value = 0) := by tauto
  simp [getConfigSetRequest, registersCollection.values, hc,
    CryptH.GetValue, CryptL.GetValue]

/-- Witness for C4 at a bank staging the key bytes 0xDE, 0xAD. -/
theorem C4_crypt_bytes_always_zero_witness :
    (getConfigSetRequest false
      { newRegistersCollection with cryptH := ⟨0xDE⟩, cryptL := ⟨0xAD⟩ }).length = 11 ∧
    (getConfigSetRequest false
      { newRegistersCollection with cryptH := ⟨0xDE⟩, cryptL := ⟨0xAD⟩ }).getD 9 0 = 0 ∧
    (getConfigSetRequest false
      { newRegistersCollection with cryptH := ⟨0xDE⟩, cryptL := ⟨0xAD⟩ }).getD 10 0 = 0 :=
  C4_crypt_bytes_always_zero false
    { newRegistersCollection with cryptH := ⟨0xDE⟩, cryptL := ⟨0xAD⟩ }
    (Or.inl (by decide))

/-- C5: with the bank RSSI flag enabled, the decode callback receives all
received bytes except the last as payload and the last byte as RSSI
([0x41, 0x42, 0x43, 0xC8] gives payload "ABC" and RSSI 200), and an error
for every buffer shorter than 2 bytes; with the flag disabled, the whole
buffer is the payload and RSSI is 0. -/
theorem C5_message_decode (registers : registersCollection) (msg : List Nat) :
    (registers.reg3.enableRSSI = RSSI_ENABLE →
       (2 ≤ msg.length →
          onMessageHandler registers msg none =
            some (⟨msg.take (msg.length - 1), msg.getD (msg.length - 1) 0⟩, none)) ∧
       (msg.length < 2 →
          onMessageHandler registers msg none =
            some (⟨[], 0⟩, some CbErr.invalidMessage)) ∧
       onMessageHandler registers [0x41, 0x42, 0x43, 0xC8] none =
         some (⟨[0x41, 0x42, 0x43], 200⟩, none)) ∧
    (registers.reg3.enableRSSI ≠ RSSI_ENABLE →
       onMessageHandler registers msg none = some (⟨msg, 0⟩, none)) := by
  constructor
  · intro hE
    refine ⟨?_, ?_, ?_⟩
    · intro hlen
      simp [onMessageHandler, hE, Nat.not_lt.mpr hlen]
    · intro hlen
      simp [onMessageHandler, hE, hlen]
    · simp [onMessageHandler, hE]
  · intro hN
    simp [onMessageHandler, hN]

/-- Witness for C5: the concrete RSSI-enabled decode of
[0x41, 0x42, 0x43, 0xC8], the short-buffer error, and the RSSI-disabled
decode. -/
theorem C5_message_decode_witness :
    onMessageHandler { newRegistersCollection with reg3 := ⟨0x80, 0, 0, 0⟩ }
        [0x41, 0x42, 0x43, 0xC8] none =
      some (⟨[0x41, 0x42, 0x43], 200⟩, none) ∧
    onMessageHandler { newRegistersCollection with reg3 := ⟨0x80, 0, 0, 0⟩ }
        [0x55] none =
      some (⟨[], 0⟩, some CbErr.invalidMessage) ∧
    onMessageHandler newRegistersCollection [0x41, 0x42, 0x43, 0xC8] none =
      some (⟨[0x41, 0x42, 0x43, 0xC8], 0⟩, none) :=
  ⟨((C5_message_decode { newRegistersCollection with reg3 := ⟨0x80, 0, 0, 0⟩ }
      [0x41, 0x42, 0x43, 0xC8]).1 rfl).2.2,
   ((C5_message_decode { newRegistersCollection with reg3 := ⟨0x80, 0, 0, 0⟩ }
      [0x55]).1 rfl).2.1 (by decide),
   (C5_message_decode newRegistersCollection [0x41, 0x42, 0x43, 0xC8]).2 (by decide)⟩

/-- C6: SendMessage and SendFixedMessage return a state error with no
serial write for every message while the mode is Sleep or PowerSaving, and
SendFixedMessage returns a state error with no serial write for every mode
while the transmission method field is Transparent. -/
theorem C6_send_guards (registers : registersCollection) (currentMode : ChipMode)
    (addressHigh addressLow channel : Nat) (message : List Nat) :
    (currentMode = ChipMode.sleep ∨ currentMode = ChipMode.powerSave →
       SendMessage currentMode message = (Except.error SendErr.modeState, []) ∧
       SendFixedMessage registers currentMode addressHigh addressLow channel message =
         (Except.error SendErr.modeState, [])) ∧
    (registers.reg3.transmissionMethod = TRANSMISSION_TRANSPARENT →
       ∃ e, SendFixedMessage registers currentMode addressHigh addressLow channel
           message = (Except.error e, [])) := by
  constructor
  · intro h
    constructor
    · simp only [SendMessage, if_pos h]
    · simp only [SendFixedMessage, if_pos h]
  · intro hT
    by_cases hM : currentMode = ChipMode.sleep ∨ currentMode = ChipMode.powerSave
    · exact ⟨SendErr.modeState, by simp only [SendFixedMessage, if_pos hM]⟩
    · exact ⟨SendErr.transparentState,
        by simp only [SendFixedMessage, if_neg hM, if_pos hT]⟩

/-- Witness for C6: a send in Sleep mode and a fixed send in Normal mode on
a Transparent-configured bank. -/
theorem C6_send_guards_witness :
    (SendMessage ChipMode.sleep [0x68, 0x69] = (Except.error SendErr.modeState, []) ∧
      SendFixedMessage newRegistersCollection ChipMode.sleep 0 0 5 [0x68, 0x69] =
        (Except.error SendErr.modeState, [])) ∧
    (∃ e, SendFixedMessage newRegistersCollection ChipMode.normal 0 0 5 [0x68, 0x69] =
        (Except.error e, [])) :=
  ⟨(C6_send_guards newRegistersCollection ChipMode.sleep 0 0 5 [0x68, 0x69]).1
      (Or.inl rfl),
   (C6_send_guards newRegistersCollection ChipMode.normal 0 0 5 [0x68, 0x69]).2 rfl⟩

/-- C7: committing a staged bank that is byte-identical (EqualTo over all 8
GetValue slots) to the current bank returns the no-op error with an empty
hardware trace — no mode switch, serial write or serial read — and leaves
the current bank unchanged. -/
theorem C7_commit_noop (hw : HWOracle) (temporaryConfig : Bool)
    (stagedRegisters current : registersCollection)
    (h : stagedRegisters.EqualTo current = true) :
    WriteConfigToChip hw temporaryConfig stagedRegisters current =
      some { result := Except.error
               "new register setup is the same as the setup on the chip, ignoring"
             registers := current
             ops := [] } := by
  simp only [WriteConfigToChip, h, if_pos]

/-- Witness for C7 at the all-zero bank committed onto itself. -/
theorem C7_commit_noop_witness :
    WriteConfigToChip ⟨ChipMode.normal, ⟨[], []⟩⟩ false newRegistersCollection
        newRegistersCollection =
      some { result := Except.error
               "new register setup is the same as the setup on the chip, ignoring"
             registers := newRegistersCollection
             ops := [] } :=
  C7_commit_noop ⟨ChipMode.normal, ⟨[], []⟩⟩ false newRegistersCollection
    newRegistersCollection rfl

/-- C10, counterexample: the well-formed frame [0xC1, 0x07, 0x02, 0xAA, 0xBB]
passes response parsing (start address 7, two parameters), yet storing the
decoded parameters drives the register index to 8 and panics: the claim that
the store never accesses an index at or above 8 is false. The in-tree
Chip.SaveConfig panics on the same frame (its byte loop bound 7+2 does not
wrap), while at the wrap-region frame [0xC1, 0xFF, 0x02, 0xAA, 0xBB] its
bound 0xFF+0x02 wraps to 0x01, the loop runs zero iterations and the bank
is returned untouched. -/
theorem C10_counterexample :
    parseChipResponse ⟨[0xC1, 0x07, 0x02, 0xAA, 0xBB], []⟩ =
        some (Except.ok
          { command := cmdGetReg, startAddr := 7, length := 2,
            params := [0xAA, 0xBB] }) ∧
      newRegistersCollection.Update 7 [0xAA, 0xBB] = none ∧
      chipSaveConfig newRegistersCollection [0xC1, 0x07, 0x02, 0xAA, 0xBB] = none ∧
      chipSaveConfig newRegistersCollection [0xC1, 0xFF, 0x02, 0xAA, 0xBB] =
        some (Except.ok newRegistersCollection) := by
  exact ⟨rfl, rfl, rfl, rfl⟩

/-- C10, amended: for every response buffer that passes response parsing the
parameter list is nonempty, and storing it stays inside the 8-slot bank
exactly when start_address + param_count ≤ 8; neither the parser nor the
store checks that bound, so a parse-accepted frame with
start_address + param_count > 8 makes the store access index 8 or beyond
and panic. -/
theorem C10_store_bounds (bank : registersCollection) (data : GoSlice)
    (rsp : chipRsp) (h : parseChipResponse data = some (Except.ok rsp)) :
    1 ≤ rsp.params.length ∧
    ((bank.Update rsp.startAddr rsp.params).isSome = true ↔
      rsp.startAddr + rsp.params.length ≤ 8) := by
  obtain ⟨hlen, hpos⟩ := parse_ok_shape h
  have h1 : 1 ≤ rsp.params.length := by omega
  refine ⟨h1, ?_⟩
  rw [registersCollection.Update, setSeq_isSome]
  constructor
  · rintro (hnil | hb)
    · rw [hnil] at h1
      simp at h1
    · exact hb
  · exact fun hb => Or.inr hb

/-- Witness for C10: a parse-accepted one-parameter frame at start address 0
stores inside the bank. -/
theorem C10_store_bounds_witness :
    (newRegistersCollection.Update 0 [0x05]).isSome = true :=
  (C10_store_bounds newRegistersCollection ⟨[0xC1, 0x00, 0x01, 0x05, 0x00], []⟩
    { command := cmdGetReg, startAddr := 0, length := 1, params := [0x05] }
    (by decide)).2.mpr (by decide)

end E22
